import Mathlib

/-!
Verification of the git-cleanup CLI tool (src/main.rs).

The program is a single linear pipeline: resolve a target branch, ask git
for the branches merged into it, filter the raw listing, let the user pick
a subset interactively, and delete the picked branches one by one.

The embedding below is shallow: the pure parts (trimming, filtering,
target detection) are Lean functions translated directly from the Rust
source; the effectful `main` is a function from an explicit environment
(the results git and the prompt would return) to an exit status together
with a trace of observable events.
-/

namespace GitCleanup

/-- Embedding of Rust's `str::trim` as used on the branch listing lines:
drop whitespace characters from both ends.  (`Char.isWhitespace` plays the
role of Rust's `char::is_whitespace`.) -/
def trim (s : String) : String :=
  ⟨((s.data.dropWhile Char.isWhitespace).reverse.dropWhile Char.isWhitespace).reverse⟩

/-- Embedding of `line.starts_with('*')` from `src/main.rs` line 55:
true iff the first character of the string is `*`. -/
def startsWithStar (line : String) : Bool :=
  match line.data with
  | [] => false
  | c :: _ => c == '*'

/-- The filtering step of `main` (`src/main.rs` lines 52–57): trim every
line of the raw `git branch --merged` listing, drop lines starting with
`*` (the current branch marker), drop lines equal to the target branch. -/
def branches_to_clean (target : String) (lines : List String) : List String :=
  ((lines.map (fun line => trim line)).filter
      (fun line => !startsWithStar line)).filter
    (fun line => line != target)

/-- `detect_default_branch` from `src/main.rs` lines 106–115, with the
`branch_exists` probe abstracted as a boolean oracle.  The Rust function
returns `Result<String>` and never constructs the error case. -/
def detect_default_branch (branch_exists : String → Bool) : Except String String :=
  if branch_exists "main" then Except.ok "main"
  else if branch_exists "master" then Except.ok "master"
  else Except.ok "main"

/-- Step 1 of `main` (`src/main.rs` lines 24–27): use the user-supplied
target if present, otherwise auto-detect. -/
def resolveTarget (branch_exists : String → Bool) (args_target : Option String) :
    Except String String :=
  match args_target with
  | some t => Except.ok t
  | none => detect_default_branch branch_exists

/-- Observable events of a run: messages printed to stdout/stderr, the
interactive prompt being shown, and actual `git branch -d` invocations. -/
inductive Event where
  /-- the search announcement printed for the target -/
  | searchMsg (target : String)
  /-- the stderr message: target branch not found or not a git repository -/
  | vcsErrorMsg
  /-- the stdout message: clean, no merged branches to delete -/
  | nothingToCleanMsg
  /-- the stdout message announcing how many branches were found -/
  | foundMsg (count : Nat)
  /-- the `MultiSelect` prompt shown with the given items -/
  | prompt (items : List String)
  /-- the stdout message: cancelled, no branches were deleted -/
  | cancelledMsg
  /-- the dry-run report that the named branch would be deleted -/
  | dryRunReport (name : String)
  /-- an actual invocation of `git branch -d <name>` -/
  | gitDeleteBranch (name : String)
  /-- the stdout report that the named branch was deleted -/
  | deletedMsg (name : String)
  /-- the stderr report that deleting the named branch failed -/
  | deleteFailedMsg (name : String)
  /-- the final done message -/
  | doneMsg
deriving DecidableEq, Repr

/-- Process exit: `Ok(())` from the Rust `main` means exit code 0;
a propagated `Err` means a nonzero exit. -/
inductive ExitStatus where
  | success
  | failure (msg : String)
deriving DecidableEq, Repr

/-- Exit code of the process: 0 on `Ok(())`, nonzero on `Err`. -/
def ExitStatus.code : ExitStatus → Nat
  | ExitStatus.success => 0
  | ExitStatus.failure _ => 1

/-- Command-line arguments (`Args` in `src/main.rs`). -/
structure Args where
  target : Option String
  dry_run : Bool

/-- The outside world as `main` observes it:
`branch_exists n` is the exit-status of `git rev-parse --verify n`;
`mergedQuery t` is the result of `git branch --merged t`
(`none` = the process could not be spawned, otherwise the success flag of
its exit status and its stdout split into lines);
`interact items` is the result of the `MultiSelect` prompt
(`none` = I/O error, otherwise the confirmed indices);
`deleteStatus n` is the result of `git branch -d n`
(`none` = the process could not be spawned, otherwise whether it exited
successfully). -/
structure Env where
  branch_exists : String → Bool
  mergedQuery : String → Option (Bool × List String)
  interact : List String → Option (List Nat)
  deleteStatus : String → Option Bool

/-- `delete_branch` from `src/main.rs` lines 117–130: spawn
`git branch -d`; a spawn failure is propagated (`.status()?`), otherwise
the outcome is printed and `Ok(())` is returned either way. -/
def delete_branch (ds : String → Option Bool) (branch_name : String) :
    List Event × Option String :=
  match ds branch_name with
  | none => ([Event.gitDeleteBranch branch_name], some "Failed to execute git command")
  | some true => ([Event.gitDeleteBranch branch_name, Event.deletedMsg branch_name], none)
  | some false =>
      ([Event.gitDeleteBranch branch_name, Event.deleteFailedMsg branch_name], none)

/-- The deletion loop of `main` (`src/main.rs` lines 79–87): for each
selected index, report intent in dry-run mode, otherwise call
`delete_branch`; a `delete_branch` error (spawn failure) aborts the loop
via `?`.  Returns the emitted events and the propagated error, if any. -/
def runDeletions (ds : String → Option Bool) (dry_run : Bool) (branches : List String) :
    List Nat → List Event × Option String
  | [] => ([], none)
  | index :: rest =>
    if dry_run then
      let r := runDeletions ds dry_run branches rest
      (Event.dryRunReport (branches.getD index "") :: r.1, r.2)
    else
      match delete_branch ds (branches.getD index "") with
      | (evs, some e) => (evs, some e)
      | (evs, none) =>
        let r := runDeletions ds dry_run branches rest
        (evs ++ r.1, r.2)

/-- `main` from `src/main.rs` lines 20–94, as a function of the
environment: resolve the target, query merged branches (a non-success
exit prints an error and returns `Ok`), filter, handle the empty list,
prompt, handle the empty selection, then run the deletion loop. -/
def main (env : Env) (args : Args) : ExitStatus × List Event :=
  match resolveTarget env.branch_exists args.target with
  | Except.error e => (ExitStatus.failure e, [])
  | Except.ok target =>
    match env.mergedQuery target with
    | none => (ExitStatus.failure "Failed to execute git command", [Event.searchMsg target])
    | some (success, lines) =>
      if !success then
        (ExitStatus.success, [Event.searchMsg target, Event.vcsErrorMsg])
      else if (branches_to_clean target lines).isEmpty then
        (ExitStatus.success, [Event.searchMsg target, Event.nothingToCleanMsg])
      else
        match env.interact (branches_to_clean target lines) with
        | none =>
          (ExitStatus.failure "MultiSelect interaction failed",
            [Event.searchMsg target,
             Event.foundMsg (branches_to_clean target lines).length,
             Event.prompt (branches_to_clean target lines)])
        | some selections =>
          if selections.isEmpty then
            (ExitStatus.success,
              [Event.searchMsg target,
               Event.foundMsg (branches_to_clean target lines).length,
               Event.prompt (branches_to_clean target lines),
               Event.cancelledMsg])
          else
            match runDeletions env.deleteStatus args.dry_run
                (branches_to_clean target lines) selections with
            | (evs, some e) =>
              (ExitStatus.failure e,
                [Event.searchMsg target,
                 Event.foundMsg (branches_to_clean target lines).length,
                 Event.prompt (branches_to_clean target lines)] ++ evs)
            | (evs, none) =>
              (ExitStatus.success,
                ([Event.searchMsg target,
                  Event.foundMsg (branches_to_clean target lines).length,
                  Event.prompt (branches_to_clean target lines)] ++ evs) ++
                  (if args.dry_run then [] else [Event.doneMsg]))

/-! ## Claims about the filtering step and target detection -/

/-- C1: for every raw merged-branch listing and every target branch name,
no line starting with `*` (the current-branch marker) and no line equal to
the target appears in the candidate list produced by `branches_to_clean`. -/
theorem candidates_exclude_current_and_target (target : String) (lines : List String)
    (b : String) (hb : b ∈ branches_to_clean target lines) :
    startsWithStar b = false ∧ b ≠ target := by
  simp only [branches_to_clean, List.mem_filter, Bool.not_eq_true', bne_iff_ne, ne_eq] at hb
  exact ⟨hb.1.2, hb.2⟩

/-- Witness for C1 at a concrete listing. -/
theorem candidates_exclude_current_and_target_witness :
    "feature-a" ∈ branches_to_clean "main" ["* main", "  feature-a", "  main"] ∧
    (startsWithStar "feature-a" = false ∧ "feature-a" ≠ "main") :=
  ⟨by decide,
    candidates_exclude_current_and_target "main" ["* main", "  feature-a", "  main"]
      "feature-a" (by decide)⟩

/-- C3: on the listing `["* main", "  feature-a", "  feature-b", "  main"]`
with target `"main"`, the filtering step yields exactly
`["feature-a", "feature-b"]`, in that order. -/
theorem scenario_filtering :
    branches_to_clean "main" ["* main", "  feature-a", "  feature-b", "  main"] =
      ["feature-a", "feature-b"] := by decide

/-- C9: the candidate list is an order-preserving subsequence (a
`List.Sublist`) of the trimmed lines of the raw listing; in particular no
element's multiplicity ever increases, so filtering never reorders or
duplicates. -/
theorem candidates_sublist_of_trimmed (target : String) (lines : List String) :
    List.Sublist (branches_to_clean target lines) (lines.map trim) ∧
    ∀ b : String, List.count b (branches_to_clean target lines) ≤
      List.count b (lines.map trim) := by
  have hs : List.Sublist (branches_to_clean target lines) (lines.map trim) :=
    (List.filter_sublist _).trans (List.filter_sublist _)
  exact ⟨hs, fun b => hs.count_le b⟩

/-- C10: filtering is complete: every line of the listing whose trimmed
form does not start with `*` and is not the target appears in the
candidate list — this includes lines with other markers such as `+` and
the empty string obtained from a blank line. -/
theorem candidates_complete (target : String) (lines : List String) (line : String)
    (hmem : line ∈ lines) (hstar : startsWithStar (trim line) = false)
    (hne : trim line ≠ target) :
    trim line ∈ branches_to_clean target lines := by
  simp only [branches_to_clean, List.mem_filter, List.mem_map, Bool.not_eq_true',
    bne_iff_ne, ne_eq]
  exact ⟨⟨⟨line, hmem, rfl⟩, hstar⟩, hne⟩

/-- Witness for C10: a line marked `+` (checked out in another worktree)
and a blank line both survive the filter. -/
theorem candidates_complete_witness :
    ("+ feature-c" ∈ (["* main", "+ feature-c", ""] : List String) ∧
      startsWithStar (trim "+ feature-c") = false ∧ trim "+ feature-c" ≠ "main" ∧
      trim "+ feature-c" ∈ branches_to_clean "main" ["* main", "+ feature-c", ""]) ∧
    ("" ∈ (["* main", "+ feature-c", ""] : List String) ∧
      startsWithStar (trim "") = false ∧ trim "" ≠ "main" ∧
      trim "" ∈ branches_to_clean "main" ["* main", "+ feature-c", ""]) :=
  ⟨⟨by decide, by decide, by decide,
      candidates_complete "main" ["* main", "+ feature-c", ""] "+ feature-c"
        (by decide) (by decide) (by decide)⟩,
    ⟨by decide, by decide, by decide,
      candidates_complete "main" ["* main", "+ feature-c", ""] ""
        (by decide) (by decide) (by decide)⟩⟩

/-- C4: with no user-supplied target, detection returns `main` when it
exists, else `master` when it exists, else falls back to `main`; it never
returns an error. -/
theorem detect_default_branch_spec (be : String → Bool) :
    (be "main" = true → detect_default_branch be = Except.ok "main") ∧
    (be "main" = false → be "master" = true →
      detect_default_branch be = Except.ok "master") ∧
    (be "main" = false → be "master" = false →
      detect_default_branch be = Except.ok "main") ∧
    ∃ t, detect_default_branch be = Except.ok t := by
  refine ⟨fun h1 => by simp [detect_default_branch, h1],
    fun h1 h2 => by simp [detect_default_branch, h1, h2],
    fun h1 h2 => by simp [detect_default_branch, h1, h2], ?_⟩
  unfold detect_default_branch
  cases be "main" <;> cases be "master" <;> simp

/-- Witness for C4: the spec scenario where `main` is absent but `master`
exists resolves to `master`. -/
theorem detect_default_branch_spec_witness :
    (fun s => s == "master") "main" = false ∧
    (fun s => s == "master") "master" = true ∧
    detect_default_branch (fun s => s == "master") = Except.ok "master" :=
  ⟨by decide, by decide,
    (detect_default_branch_spec (fun s => s == "master")).2.1 (by decide) (by decide)⟩

/-! ## Unfolding lemmas for the deletion loop -/

/-- The deletion loop emits nothing on an empty selection. -/
theorem runDeletions_nil (ds : String → Option Bool) (dr : Bool) (branches : List String) :
    runDeletions ds dr branches [] = ([], none) := rfl

/-- One dry-run step of the deletion loop. -/
theorem runDeletions_cons_true (ds : String → Option Bool) (branches : List String)
    (j : Nat) (rest : List Nat) :
    runDeletions ds true branches (j :: rest) =
      (Event.dryRunReport (branches.getD j "") :: (runDeletions ds true branches rest).1,
        (runDeletions ds true branches rest).2) := rfl

/-- One real step of the deletion loop. -/
theorem runDeletions_cons_false (ds : String → Option Bool) (branches : List String)
    (j : Nat) (rest : List Nat) :
    runDeletions ds false branches (j :: rest) =
      match delete_branch ds (branches.getD j "") with
      | (evs, some e) => (evs, some e)
      | (evs, none) => (evs ++ (runDeletions ds false branches rest).1,
          (runDeletions ds false branches rest).2) := rfl

/-- `delete_branch` when the `git branch -d` process can be spawned: the
invocation happens, the outcome is reported, and no error is propagated. -/
theorem delete_branch_eq_some (ds : String → Option Bool) (name : String) (b : Bool)
    (hb : ds name = some b) :
    delete_branch ds name =
      ([Event.gitDeleteBranch name,
        if b then Event.deletedMsg name else Event.deleteFailedMsg name], none) := by
  cases b <;> simp [delete_branch, hb]

/-- With dry-run on, every event the deletion loop emits is a dry-run
report. -/
theorem runDeletions_dry_run_events (ds : String → Option Bool) (branches : List String)
    (sels : List Nat) :
    ∀ ev ∈ (runDeletions ds true branches sels).1, ∃ m, ev = Event.dryRunReport m := by
  induction sels with
  | nil => intro ev hev; simp [runDeletions_nil] at hev
  | cons j rest ih =>
    intro ev hev
    rw [runDeletions_cons_true] at hev
    rcases List.mem_cons.mp hev with rfl | hev
    · exact ⟨_, rfl⟩
    · exact ih ev hev

/-! ## Claims about the run as a whole -/

/-- C2: when dry-run mode is enabled, a run never invokes a real
`git branch -d` for any branch, and never reports a real deletion outcome;
it only reports intent. -/
theorem dry_run_no_real_deletion (env : Env) (args : Args) (n : String)
    (h : args.dry_run = true) :
    Event.gitDeleteBranch n ∉ (main env args).2 ∧
    Event.deletedMsg n ∉ (main env args).2 ∧
    Event.deleteFailedMsg n ∉ (main env args).2 := by
  unfold main
  rw [h]
  rcases hr : resolveTarget env.branch_exists args.target with e | target
  · simp [hr]
  rcases hq : env.mergedQuery target with _ | ⟨succ, lines⟩
  · simp [hq]
  cases succ with
  | false => simp [hq]
  | true =>
    by_cases hb : branches_to_clean target lines = []
    · simp [hq, hb]
    · rcases hi : env.interact (branches_to_clean target lines) with _ | selections
      · simp [hq, hb, hi]
      · by_cases hs : selections = []
        · simp [hq, hb, hi, hs]
        · have hsafe := runDeletions_dry_run_events env.deleteStatus
            (branches_to_clean target lines) selections
          rcases hR : runDeletions env.deleteStatus true
              (branches_to_clean target lines) selections with ⟨evs, err⟩
          rw [hR] at hsafe
          have hnot1 : Event.gitDeleteBranch n ∉ evs := fun hmem => by
            obtain ⟨m, hm⟩ := hsafe _ hmem; exact absurd hm (by simp)
          have hnot2 : Event.deletedMsg n ∉ evs := fun hmem => by
            obtain ⟨m, hm⟩ := hsafe _ hmem; exact absurd hm (by simp)
          have hnot3 : Event.deleteFailedMsg n ∉ evs := fun hmem => by
            obtain ⟨m, hm⟩ := hsafe _ hmem; exact absurd hm (by simp)
          cases err with
          | some e => simp [hq, hb, hi, hs, hR, hnot1, hnot2, hnot3]
          | none => simp [hq, hb, hi, hs, hR, hnot1, hnot2, hnot3]

/-- Environment for the C2 witness: a repository where the loop is really
reached in dry-run mode. -/
def envDryRun : Env :=
  ⟨fun _ => true, fun _ => some (true, ["* main", "  feature-a"]),
    fun _ => some [0], fun _ => some true⟩

/-- Witness for C2 on a concrete dry-run invocation. -/
theorem dry_run_no_real_deletion_witness :
    Event.gitDeleteBranch "feature-a" ∉ (main envDryRun ⟨some "main", true⟩).2 ∧
    Event.deletedMsg "feature-a" ∉ (main envDryRun ⟨some "main", true⟩).2 ∧
    Event.deleteFailedMsg "feature-a" ∉ (main envDryRun ⟨some "main", true⟩).2 :=
  dry_run_no_real_deletion envDryRun ⟨some "main", true⟩ "feature-a" rfl

/-- C5: as long as the `git branch -d` process itself can be spawned for
every selected branch (the only per-branch condition the loop can abort
on), the deletion loop finishes without a propagated error, processes
every selected branch — a non-zero exit of one deletion does not abort the
loop — and reports each branch's outcome (deleted or failed)
individually. -/
theorem delete_loop_reports_each (ds : String → Option Bool) (branches : List String)
    (sels : List Nat) (h : ∀ i ∈ sels, (ds (branches.getD i "")).isSome = true) :
    (runDeletions ds false branches sels).2 = none ∧
    ∀ i ∈ sels,
      Event.gitDeleteBranch (branches.getD i "") ∈ (runDeletions ds false branches sels).1 ∧
      (Event.deletedMsg (branches.getD i "") ∈ (runDeletions ds false branches sels).1 ∨
        Event.deleteFailedMsg (branches.getD i "") ∈ (runDeletions ds false branches sels).1) := by
  induction sels with
  | nil => simp [runDeletions_nil]
  | cons j rest ih =>
    have hj : (ds (branches.getD j "")).isSome = true := h j (List.mem_cons_self _ _)
    obtain ⟨hnone, hmem⟩ := ih (fun i hi => h i (List.mem_cons_of_mem _ hi))
    obtain ⟨b, hb⟩ := Option.isSome_iff_exists.mp hj
    have hstep : runDeletions ds false branches (j :: rest) =
        ([Event.gitDeleteBranch (branches.getD j ""),
          if b then Event.deletedMsg (branches.getD j "")
          else Event.deleteFailedMsg (branches.getD j "")] ++
            (runDeletions ds false branches rest).1,
          (runDeletions ds false branches rest).2) := by
      rw [runDeletions_cons_false, delete_branch_eq_some ds _ b hb]
    rw [hstep]
    refine ⟨hnone, ?_⟩
    intro i hi
    rcases List.mem_cons.mp hi with rfl | hi
    · refine ⟨List.mem_append_left _ (List.mem_cons_self _ _), ?_⟩
      cases b with
      | true => exact Or.inl (List.mem_append_left _ (by simp))
      | false => exact Or.inr (List.mem_append_left _ (by simp))
    · obtain ⟨hg, hd⟩ := hmem i hi
      refine ⟨List.mem_append_right _ hg, ?_⟩
      rcases hd with hd | hd
      · exact Or.inl (List.mem_append_right _ hd)
      · exact Or.inr (List.mem_append_right _ hd)

/-- Witness for C5: two selected branches; deleting the first succeeds,
deleting the second fails, yet both are processed and reported. -/
theorem delete_loop_reports_each_witness :
    (∀ i ∈ ([0, 1] : List Nat),
      ((fun k => some (k == "a")) ((["a", "b"] : List String).getD i "")).isSome = true) ∧
    ((runDeletions (fun k => some (k == "a")) false ["a", "b"] [0, 1]).2 = none ∧
      ∀ i ∈ ([0, 1] : List Nat),
        Event.gitDeleteBranch ((["a", "b"] : List String).getD i "") ∈
          (runDeletions (fun k => some (k == "a")) false ["a", "b"] [0, 1]).1 ∧
        (Event.deletedMsg ((["a", "b"] : List String).getD i "") ∈
          (runDeletions (fun k => some (k == "a")) false ["a", "b"] [0, 1]).1 ∨
          Event.deleteFailedMsg ((["a", "b"] : List String).getD i "") ∈
            (runDeletions (fun k => some (k == "a")) false ["a", "b"] [0, 1]).1)) :=
  ⟨by decide,
    delete_loop_reports_each (fun k => some (k == "a")) ["a", "b"] [0, 1] (by decide)⟩

/-- C6: when the merged-branch query runs but exits unsuccessfully (target
branch missing or not a git repository), the failure is reported on
stderr, the run exits with code 0, and neither the prompt nor any deletion
(real or dry-run) ever happens. -/
theorem vcs_error_clean_exit (env : Env) (args : Args) (target : String)
    (lines : List String) (items : List String) (n : String)
    (h1 : resolveTarget env.branch_exists args.target = Except.ok target)
    (h2 : env.mergedQuery target = some (false, lines)) :
    (main env args).1 = ExitStatus.success ∧
    ExitStatus.code (main env args).1 = 0 ∧
    Event.vcsErrorMsg ∈ (main env args).2 ∧
    Event.prompt items ∉ (main env args).2 ∧
    Event.gitDeleteBranch n ∉ (main env args).2 ∧
    Event.dryRunReport n ∉ (main env args).2 := by
  simp [main, h1, h2, ExitStatus.code]

/-- Environment for the C6 witness: the query exits unsuccessfully. -/
def envVcsFail : Env :=
  ⟨fun _ => false, fun _ => some (false, []), fun _ => none, fun _ => none⟩

/-- Witness for C6 on a concrete failing query. -/
theorem vcs_error_clean_exit_witness :
    (main envVcsFail ⟨some "main", false⟩).1 = ExitStatus.success ∧
    ExitStatus.code (main envVcsFail ⟨some "main", false⟩).1 = 0 ∧
    Event.vcsErrorMsg ∈ (main envVcsFail ⟨some "main", false⟩).2 ∧
    Event.prompt ["feature-a"] ∉ (main envVcsFail ⟨some "main", false⟩).2 ∧
    Event.gitDeleteBranch "feature-a" ∉ (main envVcsFail ⟨some "main", false⟩).2 ∧
    Event.dryRunReport "feature-a" ∉ (main envVcsFail ⟨some "main", false⟩).2 :=
  vcs_error_clean_exit envVcsFail ⟨some "main", false⟩ "main" [] ["feature-a"]
    "feature-a" rfl rfl

/-- C7: when filtering leaves no candidate, the nothing-to-clean message is
printed, no prompt is shown, no deletion of any kind is attempted, and the
run exits with code 0. -/
theorem empty_candidates_clean_exit (env : Env) (args : Args) (target : String)
    (lines : List String) (items : List String) (n : String)
    (h1 : resolveTarget env.branch_exists args.target = Except.ok target)
    (h2 : env.mergedQuery target = some (true, lines))
    (h3 : branches_to_clean target lines = []) :
    (main env args).1 = ExitStatus.success ∧
    ExitStatus.code (main env args).1 = 0 ∧
    Event.nothingToCleanMsg ∈ (main env args).2 ∧
    Event.prompt items ∉ (main env args).2 ∧
    Event.gitDeleteBranch n ∉ (main env args).2 ∧
    Event.dryRunReport n ∉ (main env args).2 := by
  simp [main, h1, h2, h3, ExitStatus.code]

/-- Environment for the C7 witness: only the current branch and the target
itself are listed, so filtering leaves nothing. -/
def envAllClean : Env :=
  ⟨fun _ => false, fun _ => some (true, ["* main", "  main"]), fun _ => none,
    fun _ => none⟩

/-- Witness for C7 on a concrete empty-candidate run. -/
theorem empty_candidates_clean_exit_witness :
    (main envAllClean ⟨some "main", false⟩).1 = ExitStatus.success ∧
    ExitStatus.code (main envAllClean ⟨some "main", false⟩).1 = 0 ∧
    Event.nothingToCleanMsg ∈ (main envAllClean ⟨some "main", false⟩).2 ∧
    Event.prompt ["feature-a"] ∉ (main envAllClean ⟨some "main", false⟩).2 ∧
    Event.gitDeleteBranch "feature-a" ∉ (main envAllClean ⟨some "main", false⟩).2 ∧
    Event.dryRunReport "feature-a" ∉ (main envAllClean ⟨some "main", false⟩).2 :=
  empty_candidates_clean_exit envAllClean ⟨some "main", false⟩ "main"
    ["* main", "  main"] ["feature-a"] "feature-a" rfl rfl (by decide)

/-- C8: when the user confirms an empty selection, the cancelled message
is printed, no deletion — real or dry-run — is performed on any branch,
and the run exits with code 0. -/
theorem empty_selection_no_deletion (env : Env) (args : Args) (target : String)
    (lines : List String) (n : String)
    (h1 : resolveTarget env.branch_exists args.target = Except.ok target)
    (h2 : env.mergedQuery target = some (true, lines))
    (h3 : branches_to_clean target lines ≠ [])
    (h4 : env.interact (branches_to_clean target lines) = some []) :
    (main env args).1 = ExitStatus.success ∧
    ExitStatus.code (main env args).1 = 0 ∧
    Event.cancelledMsg ∈ (main env args).2 ∧
    Event.gitDeleteBranch n ∉ (main env args).2 ∧
    Event.dryRunReport n ∉ (main env args).2 ∧
    Event.deletedMsg n ∉ (main env args).2 ∧
    Event.deleteFailedMsg n ∉ (main env args).2 := by
  simp [main, h1, h2, h3, h4, ExitStatus.code]

/-- Environment for the C8 witness: one candidate is offered and the user
deselects everything. -/
def envCancelled : Env :=
  ⟨fun _ => false, fun _ => some (true, ["* main", "  feature-a"]),
    fun _ => some [], fun _ => some true⟩

/-- Witness for C8 on a concrete cancelled run. -/
theorem empty_selection_no_deletion_witness :
    (main envCancelled ⟨some "main", false⟩).1 = ExitStatus.success ∧
    ExitStatus.code (main envCancelled ⟨some "main", false⟩).1 = 0 ∧
    Event.cancelledMsg ∈ (main envCancelled ⟨some "main", false⟩).2 ∧
    Event.gitDeleteBranch "feature-a" ∉ (main envCancelled ⟨some "main", false⟩).2 ∧
    Event.dryRunReport "feature-a" ∉ (main envCancelled ⟨some "main", false⟩).2 ∧
    Event.deletedMsg "feature-a" ∉ (main envCancelled ⟨some "main", false⟩).2 ∧
    Event.deleteFailedMsg "feature-a" ∉ (main envCancelled ⟨some "main", false⟩).2 :=
  empty_selection_no_deletion envCancelled ⟨some "main", false⟩ "main"
    ["* main", "  feature-a"] "feature-a" rfl rfl (by decide) rfl

end GitCleanup

